import Mathlib

/-!
Shallow embedding of the variable-introspection helper
pythonFiles/vscode_datascience_helpers/getVariableInfo/vscodeGetVariableInfo.py.

A Python object is modelled by the outcomes of the probes the helper
performs on it: the type-name lookup, the shape attribute access, the
length protocol, and the generic attribute lookup used by the
properties query.  Each probe that the interpreter may abort with an
exception is modelled as an Except value; the helper catches exactly
the class TypeError, so the model distinguishes that class from every
other exception class.
-/

deriving instance DecidableEq for Except

/-- Exception class of a Python runtime error.  The helper catches
exactly TypeError, so the model only needs to distinguish TypeError
from all other classes. -/
inductive PyExn where
  | typeError
  | otherError
  deriving DecidableEq, Fintype

/-- Outcome of reading the shape attribute of an object: whether the
attribute value is an instance of the builtin tuple type, and the text
produced by applying str to it. -/
structure ShapeVal where
  isTuple : Bool
  text : String
  deriving DecidableEq

/-- Abstract Python object, described by the observable outcomes of the
probes the helper performs on it.
typeProbe models the block vartype = type(var) followed by the
__name__ lookup: ok none when the type has no __name__ attribute,
ok (some n) when the name is n, error e when the probe raises e.
hasShapeProbe models the hasattr test on the shape name, which itself
runs the getter and propagates every exception the getter raises other
than AttributeError; shapeProbe models the reads of the attribute
inside the try block, with the isinstance test and the str rendering
(only consulted when the hasattr test returned true).
hasLenProbe models the hasattr test on the length protocol in the same
way; lenProbe models the len call inside the try block (only consulted
when that hasattr test returned true).
getattrRepr models one iteration of the properties comprehension on an
attribute name: the hasattr filter followed, when it passes, by
getattr and repr; ok none when the attribute is absent, ok (some s)
when the repr of the attribute value is s, error e when the hasattr
test or the repr of the value raises e (that comprehension runs under
no handler, so the caller of the field decides nothing is caught). -/
structure PyObj where
  typeProbe : Except PyExn (Option String)
  hasShapeProbe : Except PyExn Bool
  shapeProbe : Except PyExn ShapeVal
  hasLenProbe : Except PyExn Bool
  lenProbe : Except PyExn Nat
  getattrRepr : String → Except PyExn (Option String)

/-- Record built by the descriptor query, with the three fixed keys in
their insertion order. -/
structure VarInfo where
  shape : String
  count : Nat
  type : String
  deriving DecidableEq

/-- Primitive JSON value appearing in the serialized mappings: every
mapping the helper emits is flat, with string or number values. -/
inductive JPrim where
  | str (s : String)
  | num (n : Nat)
  deriving DecidableEq

/-- Hexadecimal digit (lowercase), as used by the JSON escapes. -/
def hexDigit (n : Nat) : Char :=
  if n < 10 then Char.ofNat (48 + n) else Char.ofNat (87 + n)

/-- Four-digit lowercase hexadecimal rendering of a code unit. -/
def hex4 (n : Nat) : String :=
  String.mk [hexDigit (n / 4096 % 16), hexDigit (n / 256 % 16),
             hexDigit (n / 16 % 16), hexDigit (n % 16)]

/-- Escape of one character under the default json.dumps encoder
(ensure_ascii): backslash and quote are escaped, the five short
control escapes are used, every other character outside the printable
ASCII range is written as a u-escape (as a surrogate pair above the
basic plane), and printable ASCII is kept as is. -/
def escChar (c : Char) : String :=
  if c = '\\' then "\\\\"
  else if c = '"' then "\\\""
  else if c = '\x08' then "\\b"
  else if c = '\x0c' then "\\f"
  else if c = '\n' then "\\n"
  else if c = '\x0d' then "\\r"
  else if c = '\t' then "\\t"
  else if c.toNat < 32 ∨ 126 < c.toNat then
    if c.toNat < 65536 then "\\u" ++ hex4 c.toNat
    else "\\u" ++ hex4 (55296 + (c.toNat - 65536) / 1024) ++
         "\\u" ++ hex4 (56320 + (c.toNat - 65536) % 1024)
  else String.mk [c]

/-- JSON string literal for s, as json.dumps renders it. -/
def jstr (s : String) : String :=
  "\"" ++ String.join (s.data.map escChar) ++ "\""

/-- Serialization of one primitive JSON value. -/
def dumpsPrim : JPrim → String
  | JPrim.str s => jstr s
  | JPrim.num n => toString n

/-- Serialization of a flat JSON object, with the separators json.dumps
uses by default. -/
def dumpsObj (l : List (String × JPrim)) : String :=
  "\x7b" ++ String.intercalate ", "
    (l.map (fun p => jstr p.1 ++ ": " ++ dumpsPrim p.2)) ++ "\x7d"

/-- View of a string-valued record as a flat JSON object. -/
def strObj (l : List (String × String)) : List (String × JPrim) :=
  l.map (fun p => (p.1, JPrim.str p.2))

/-- Python dict insertion on an association list: an existing key keeps
its position and gets the new value, a fresh key is appended. -/
def pyDictInsert : List (String × String) → String → String → List (String × String)
  | [], k, v => [(k, v)]
  | (k2, v2) :: rest, k, v =>
    if k2 = k then (k2, v) :: rest else (k2, v2) :: pyDictInsert rest k v

/-- Lookup in an association list, first entry wins (Python dict read,
where keys are unique). -/
def dictGet : List (String × String) → String → Option String
  | [], _ => none
  | (k2, v2) :: rest, k => if k2 = k then some v2 else dictGet rest k

/-- Test of the helper for a tuple-form shape rendering: length at
least three, first character an opening parenthesis, last character a
closing parenthesis, and a comma somewhere inside. -/
def tupleFormChk (l : List Char) : Bool :=
  decide (3 ≤ l.length) && l.head? == some '(' &&
    l.getLast? == some ')' && l.contains ','

/-- Marker test: does the second list start with the first one
(models str.startswith). -/
def startsWithL : List Char → List Char → Bool
  | [], _ => true
  | _ :: _, [] => false
  | a :: as, b :: bs => a == b && startsWithL as bs

/-- Removal of the last n characters (models a negative slice end). -/
def dropRightL (l : List Char) (n : Nat) : List Char :=
  l.take (l.length - n)

/-- The slice expression applied to the torch form: characters from
index 12 up to two before the end. -/
def pySliceStr (s : String) : String :=
  String.mk (dropRightL (s.data.drop 12) 2)

/-- First try-block of the descriptor query: read the type and its
name, catching TypeError into the no-name outcome. -/
def typeStep (var : PyObj) : Except PyExn (Option String) :=
  match var.typeProbe with
  | Except.ok tn => Except.ok tn
  | Except.error PyExn.typeError => Except.ok none
  | Except.error PyExn.otherError => Except.error PyExn.otherError

/-- Body of the shape conditional once the shape attribute has been
read: the isinstance-or-EagerTensor gate, then the tuple-form test,
then the torch-form rewrite, otherwise the empty default. -/
def shapeChoose (tn : Option String) (sv : ShapeVal) : String :=
  if sv.isTuple || tn == some "EagerTensor" then
    if tupleFormChk sv.text.data then sv.text
    else if startsWithL "torch.Size([".data sv.text.data then
      "(" ++ pySliceStr sv.text ++ ")"
    else ""
  else ""

/-- Shape block of the descriptor query: the hasattr test stands
outside the try block, so an exception it raises propagates whatever
its class; the reads of the attribute inside the try block fall back
to the empty default on TypeError only. -/
def shapeStep (var : PyObj) (tn : Option String) : Except PyExn String :=
  match var.hasShapeProbe with
  | Except.error e => Except.error e
  | Except.ok false => Except.ok ""
  | Except.ok true =>
    match var.shapeProbe with
    | Except.ok sv => Except.ok (shapeChoose tn sv)
    | Except.error PyExn.typeError => Except.ok ""
    | Except.error PyExn.otherError => Except.error PyExn.otherError

/-- Count block of the descriptor query: the hasattr test on the
length protocol stands outside the try block, so an exception it
raises propagates whatever its class; the len call inside the try
block falls back to the zero default on TypeError only. -/
def countStep (var : PyObj) : Except PyExn Nat :=
  match var.hasLenProbe with
  | Except.error e => Except.error e
  | Except.ok false => Except.ok 0
  | Except.ok true =>
    match var.lenProbe with
    | Except.ok n => Except.ok n
    | Except.error PyExn.typeError => Except.ok 0
    | Except.error PyExn.otherError => Except.error PyExn.otherError

/-- The descriptor query at the record level: the three probe blocks in
program order, each uncaught exception propagating, the defaults for
the three fields being the empty string, zero and the empty string. -/
def getVariableInfoRecord (var : PyObj) : Except PyExn VarInfo :=
  match typeStep var with
  | Except.error e => Except.error e
  | Except.ok tn =>
    match shapeStep var tn with
    | Except.error e => Except.error e
    | Except.ok sh =>
      match countStep var with
      | Except.error e => Except.error e
      | Except.ok c => Except.ok ⟨sh, c, tn.getD ""⟩

/-- JSON object for a descriptor record, keys in insertion order. -/
def infoJson (r : VarInfo) : List (String × JPrim) :=
  [("shape", JPrim.str r.shape), ("count", JPrim.num r.count),
   ("type", JPrim.str r.type)]

/-- The descriptor query at the JSON level. -/
def getVariableInfoJson (var : PyObj) : Except PyExn (List (String × JPrim)) :=
  (getVariableInfoRecord var).map infoJson

/-- The descriptor query: serialized output or a propagated
exception. -/
def _VSCODE_getVariableInfo (var : PyObj) : Except PyExn String :=
  (getVariableInfoJson var).map dumpsObj

/-- Name of the runtime type after the catch: the probe result when it
returns, none when it raises (only the TypeError case can be reached
in a returning call). -/
def typeNameOf (var : PyObj) : Option String :=
  match var.typeProbe with
  | Except.ok tn => tn
  | Except.error _ => none

/-- Value of the type field of a returning descriptor call. -/
def typeField (var : PyObj) : String :=
  (typeNameOf var).getD ""

/-- Value of the shape field of a returning descriptor call. -/
def shapeField (var : PyObj) : String :=
  match var.hasShapeProbe with
  | Except.ok true =>
    match var.shapeProbe with
    | Except.ok sv => shapeChoose (typeNameOf var) sv
    | Except.error _ => ""
  | _ => ""

/-- Value of the count field of a returning descriptor call. -/
def countField (var : PyObj) : Nat :=
  match var.hasLenProbe, var.lenProbe with
  | Except.ok true, Except.ok n => n
  | _, _ => 0

/-- Iteration of the dict comprehension of the properties query over
the requested names, with an explicit accumulator.  The comprehension
runs under no try block, so an exception raised by any attribute probe
propagates and aborts the whole call, whatever its class. -/
def propsFold (var : PyObj) : List String → List (String × String) → Except PyExn (List (String × String))
  | [], acc => Except.ok acc
  | a :: rest, acc =>
    match var.getattrRepr a with
    | Except.error e => Except.error e
    | Except.ok (some s) => propsFold var rest (pyDictInsert acc a s)
    | Except.ok none => propsFold var rest acc

/-- Record built by the properties query: every requested name the
object possesses, mapped to the repr of its attribute value, or a
propagated exception. -/
def propsRecord (var : PyObj) (listOfAttributes : List String) : Except PyExn (List (String × String)) :=
  propsFold var listOfAttributes []

/-- The properties query: serialized record of the possessed requested
attributes, or a propagated exception. -/
def _VSCODE_getVariableProperties (var : PyObj) (listOfAttributes : List String) : Except PyExn String :=
  (propsRecord var listOfAttributes).map (fun r => dumpsObj (strObj r))

/-- View of one returning attribute probe: the repr of the attribute
when the value possesses it, nothing when it is absent (a raising
probe yields no returning call at all). -/
def attrOutcome (var : PyObj) (a : String) : Option String :=
  match var.getattrRepr a with
  | Except.ok o => o
  | Except.error _ => none

/-- Loop of the batch type query over the zipped pairs: each pair whose
type probe yields a name is inserted, a pair whose probe yields no
name or raises TypeError is skipped, any other exception
propagates. -/
def typesRecord : List (PyObj × String) → List (String × String) → Except PyExn (List (String × String))
  | [], acc => Except.ok acc
  | (v, n) :: rest, acc =>
    match v.typeProbe with
    | Except.ok (some t) => typesRecord rest (pyDictInsert acc n t)
    | Except.ok none => typesRecord rest acc
    | Except.error PyExn.typeError => typesRecord rest acc
    | Except.error PyExn.otherError => Except.error PyExn.otherError

/-- The batch type query at the record level: zip the two sequences
positionally and build the name-to-type-name record. -/
def getVariableTypesRecord (vars : List PyObj) (varnames : List String) : Except PyExn (List (String × String)) :=
  typesRecord (vars.zip varnames) []

/-- The batch type query: serialized output or a propagated
exception. -/
def _VSCODE_getVariableTypes (vars : List PyObj) (varnames : List String) : Except PyExn String :=
  (getVariableTypesRecord vars varnames).map (fun r => dumpsObj (strObj r))

/-- Name extracted by a successful, catchable type introspection of one
object, written from the specification of the batch query: the pairs
kept are exactly those whose value yields a type name. -/
def introspectedName (v : PyObj) : Option String :=
  match v.typeProbe with
  | Except.ok (some t) => some t
  | _ => none

/-- Specification-side view of the batch query output: the positional
pairs whose value is introspectable, each mapped to name and type
name. -/
def typesSpec (l : List (PyObj × String)) : List (String × String) :=
  l.filterMap (fun p => (introspectedName p.1).map (fun t => (p.2, t)))

/-- Biased choice on optional strings, used to state accumulator
lemmas. -/
def optOr (a b : Option String) : Option String :=
  match a with
  | some x => some x
  | none => b

/-- Object with no attributes at all, used by the concrete test
objects. -/
def noAttrs : String → Except PyExn (Option String) := fun _ => Except.ok none

/-- Object whose length probe raises an exception that is not a
TypeError (a __len__ raising, say, ValueError). -/
def vBadLen : PyObj :=
  ⟨Except.ok (some "X"), Except.ok false, Except.ok ⟨false, ""⟩,
   Except.ok true, Except.error PyExn.otherError, noAttrs⟩

/-- Object whose hasattr test on the shape name raises a TypeError:
that test stands outside the try block, so even the caught class
propagates from it. -/
def vBadHasShape : PyObj :=
  ⟨Except.ok (some "X"), Except.error PyExn.typeError, Except.ok ⟨false, ""⟩,
   Except.ok false, Except.ok 0, noAttrs⟩

/-- Object whose every attribute probe raises a TypeError: the
properties query runs it under no handler. -/
def vBadProp : PyObj :=
  ⟨Except.ok (some "X"), Except.ok false, Except.ok ⟨false, ""⟩,
   Except.ok false, Except.ok 0, fun _ => Except.error PyExn.typeError⟩

/-- Object possessing the attribute a with a raising repr and nothing
else. -/
def vBadAttr : PyObj :=
  ⟨Except.ok (some "X"), Except.ok false, Except.ok ⟨false, ""⟩,
   Except.ok false, Except.ok 0,
   fun a => if a = "a" then Except.error PyExn.typeError else Except.ok none⟩

/-- Object with the attribute a rendering as 1 and no other attribute,
after the example of the specification. -/
def vProps : PyObj :=
  ⟨Except.ok (some "Foo"), Except.ok false, Except.ok ⟨false, ""⟩,
   Except.ok false, Except.ok 0,
   fun a => if a = "a" then Except.ok (some "1") else Except.ok none⟩

/-- Object whose shape attribute is not a tuple instance and whose type
name is not the gated one, but whose shape renders in tuple form. -/
def vShapeC2 : PyObj :=
  ⟨Except.ok (some "Foo"), Except.ok true, Except.ok ⟨false, "(3, 4)"⟩,
   Except.ok false, Except.ok 0, noAttrs⟩

/-- Object whose shape attribute is not a tuple instance and whose type
name is not the gated one, but whose shape renders in the torch
form. -/
def vShapeC3 : PyObj :=
  ⟨Except.ok (some "Foo"), Except.ok true, Except.ok ⟨false, "torch.Size([2, 5])"⟩,
   Except.ok false, Except.ok 0, noAttrs⟩

/-- Array-like object: tuple-instance shape rendering in tuple form,
length three. -/
def vTupleShape : PyObj :=
  ⟨Except.ok (some "ndarray"), Except.ok true, Except.ok ⟨true, "(3, 4)"⟩,
   Except.ok true, Except.ok 3, noAttrs⟩

/-- Tensor-like object: tuple-instance shape rendering in the torch
form, length two. -/
def vTorchShape : PyObj :=
  ⟨Except.ok (some "Tensor"), Except.ok true, Except.ok ⟨true, "torch.Size([2, 5])"⟩,
   Except.ok true, Except.ok 2, noAttrs⟩

/-- Integer-like object: named type, no shape, no length protocol. -/
def vInt : PyObj :=
  ⟨Except.ok (some "int"), Except.ok false, Except.ok ⟨false, ""⟩,
   Except.ok false, Except.ok 0, noAttrs⟩

/-- String-like object: named type, no shape, length one. -/
def vStr : PyObj :=
  ⟨Except.ok (some "str"), Except.ok false, Except.ok ⟨false, ""⟩,
   Except.ok true, Except.ok 1, noAttrs⟩

/-- Helper: when the type probe does not raise an uncaught exception,
the first try-block returns the caught type name. -/
theorem typeStep_eq (v : PyObj) (h : v.typeProbe ≠ Except.error PyExn.otherError) :
    typeStep v = Except.ok (typeNameOf v) := by
  cases hp : v.typeProbe with
  | ok x => simp [typeStep, typeNameOf, hp]
  | error e =>
    cases e with
    | typeError => simp [typeStep, typeNameOf, hp]
    | otherError => exact absurd hp h

/-- Helper: a returning first try-block returns the caught type
name. -/
theorem typeStep_ok_eq (v : PyObj) (tn : Option String)
    (h : typeStep v = Except.ok tn) : tn = typeNameOf v := by
  cases hp : v.typeProbe with
  | ok x =>
    simp [typeStep, hp] at h
    simp [typeNameOf, hp, h]
  | error e =>
    cases e with
    | typeError =>
      simp [typeStep, hp] at h
      simp [typeNameOf, hp, ← h]
    | otherError => simp [typeStep, hp] at h

/-- Helper: when the hasattr test on the shape name returns and the
shape reads inside the try block fail at most with the caught class,
the shape block returns the shape field value. -/
theorem shapeStep_eq (v : PyObj) (bs : Bool)
    (hb : v.hasShapeProbe = Except.ok bs)
    (h : v.shapeProbe ≠ Except.error PyExn.otherError) :
    shapeStep v (typeNameOf v) = Except.ok (shapeField v) := by
  cases bs with
  | false => simp [shapeStep, shapeField, hb]
  | true =>
    cases hp : v.shapeProbe with
    | ok sv => simp [shapeStep, shapeField, hb, hp]
    | error e =>
      cases e with
      | typeError => simp [shapeStep, shapeField, hb, hp]
      | otherError => exact absurd hp h

/-- Helper: a returning shape block returns the shape field value. -/
theorem shapeStep_ok_eq (v : PyObj) (sh : String)
    (h : shapeStep v (typeNameOf v) = Except.ok sh) : sh = shapeField v := by
  cases hb : v.hasShapeProbe with
  | error e => simp [shapeStep, hb] at h
  | ok b =>
    cases b with
    | false =>
      simp [shapeStep, hb] at h
      simp [shapeField, hb, ← h]
    | true =>
      cases hp : v.shapeProbe with
      | ok sv =>
        simp [shapeStep, hb, hp] at h
        simp [shapeField, hb, hp, ← h]
      | error e =>
        cases e with
        | typeError =>
          simp [shapeStep, hb, hp] at h
          simp [shapeField, hb, hp, ← h]
        | otherError => simp [shapeStep, hb, hp] at h

/-- Helper: when the hasattr test on the length protocol returns and
the len call inside the try block fails at most with the caught class,
the count block returns the count field value. -/
theorem countStep_eq (v : PyObj) (bl : Bool)
    (hb : v.hasLenProbe = Except.ok bl)
    (h : v.lenProbe ≠ Except.error PyExn.otherError) :
    countStep v = Except.ok (countField v) := by
  cases bl with
  | false => simp [countStep, countField, hb]
  | true =>
    cases hp : v.lenProbe with
    | ok n => simp [countStep, countField, hb, hp]
    | error e =>
      cases e with
      | typeError => simp [countStep, countField, hb, hp]
      | otherError => exact absurd hp h

/-- Helper: a returning count block returns the count field value. -/
theorem countStep_ok_eq (v : PyObj) (c : Nat)
    (h : countStep v = Except.ok c) : c = countField v := by
  cases hb : v.hasLenProbe with
  | error e => simp [countStep, hb] at h
  | ok b =>
    cases b with
    | false =>
      simp [countStep, hb] at h
      simp [countField, hb, ← h]
    | true =>
      cases hp : v.lenProbe with
      | ok n =>
        simp [countStep, hb, hp] at h
        simp [countField, hb, hp, ← h]
      | error e =>
        cases e with
        | typeError =>
          simp [countStep, hb, hp] at h
          simp [countField, hb, hp, ← h]
        | otherError => simp [countStep, hb, hp] at h

/-- Helper: when the two hasattr tests return and every probe inside a
try block fails at most with the caught class, the descriptor query
returns the record of the three field values. -/
theorem benign_record (v : PyObj) (bs bl : Bool)
    (h1 : v.typeProbe ≠ Except.error PyExn.otherError)
    (h2 : v.hasShapeProbe = Except.ok bs)
    (h3 : v.shapeProbe ≠ Except.error PyExn.otherError)
    (h4 : v.hasLenProbe = Except.ok bl)
    (h5 : v.lenProbe ≠ Except.error PyExn.otherError) :
    getVariableInfoRecord v = Except.ok ⟨shapeField v, countField v, typeField v⟩ := by
  unfold getVariableInfoRecord
  simp only [typeStep_eq v h1, shapeStep_eq v bs h2 h3, countStep_eq v bl h4 h5]
  rfl

/-- Helper: every record the descriptor query returns is the record of
the three field values. -/
theorem record_ok_eq (v : PyObj) (r : VarInfo)
    (h : getVariableInfoRecord v = Except.ok r) :
    r = ⟨shapeField v, countField v, typeField v⟩ := by
  unfold getVariableInfoRecord at h
  split at h
  · simp at h
  · rename_i tn htn
    split at h
    · simp at h
    · rename_i sh hsh
      split at h
      · simp at h
      · rename_i c hc
        injection h with h
        subst h
        obtain rfl := typeStep_ok_eq v tn htn
        obtain rfl := shapeStep_ok_eq v sh hsh
        obtain rfl := countStep_ok_eq v c hc
        rfl

/-- Helper: reading a key after a dict insertion gives the inserted
value on that key and is unchanged elsewhere. -/
theorem dictGet_insert (acc : List (String × String)) (k v n : String) :
    dictGet (pyDictInsert acc k v) n = if k = n then some v else dictGet acc n := by
  induction acc with
  | nil => simp [pyDictInsert, dictGet]
  | cons p rest ih =>
    obtain ⟨k2, v2⟩ := p
    by_cases h1 : k2 = k
    · subst h1
      by_cases h2 : k2 = n <;> simp [pyDictInsert, dictGet, h2]
    · by_cases h2 : k2 = n
      · subst h2
        have h3 : ¬k = k2 := fun h => h1 h.symm
        simp [pyDictInsert, dictGet, h1, h3]
      · simp [pyDictInsert, dictGet, h1, h2, ih]

/-- Helper: dict read distributes over list append. -/
theorem dictGet_append (l1 l2 : List (String × String)) (n : String) :
    dictGet (l1 ++ l2) n = optOr (dictGet l1 n) (dictGet l2 n) := by
  induction l1 with
  | nil => simp [dictGet, optOr]
  | cons p rest ih =>
    obtain ⟨k, v⟩ := p
    by_cases h : k = n <;> simp [dictGet, h, ih, optOr]

/-- Helper: the biased choice with an empty second component. -/
theorem optOr_none (a : Option String) : optOr a none = a := by
  cases a <;> rfl

/-- Helper: reading a record returned by the properties comprehension
with a leftover accumulator. -/
theorem dictGet_propsFold (var : PyObj) (attrs : List String)
    (acc r : List (String × String))
    (h : propsFold var attrs acc = Except.ok r) (a : String) :
    dictGet r a =
      if a ∈ attrs ∧ (attrOutcome var a).isSome then attrOutcome var a
      else dictGet acc a := by
  induction attrs generalizing acc with
  | nil =>
    simp only [propsFold] at h
    injection h with h
    subst h
    simp
  | cons b rest ih =>
    cases hgb : var.getattrRepr b with
    | error e => simp [propsFold, hgb] at h
    | ok o =>
      cases o with
      | none =>
        simp only [propsFold, hgb] at h
        rw [ih _ h]
        by_cases hab : a = b
        · subst hab
          simp [attrOutcome, hgb]
        · simp [List.mem_cons, hab]
      | some s =>
        simp only [propsFold, hgb] at h
        rw [ih _ h, dictGet_insert]
        by_cases hab : a = b
        · subst hab
          by_cases har : a ∈ rest <;> simp [attrOutcome, hgb, har]
        · have hba : ¬b = a := fun hq => hab hq.symm
          simp [List.mem_cons, hab, hba]

/-- Helper: the properties comprehension returns whenever no requested
attribute probe raises. -/
theorem propsFold_ok (var : PyObj) (attrs : List String)
    (acc : List (String × String))
    (h : ∀ a ∈ attrs, ∀ e, var.getattrRepr a ≠ Except.error e) :
    ∃ r, propsFold var attrs acc = Except.ok r := by
  induction attrs generalizing acc with
  | nil => exact ⟨acc, rfl⟩
  | cons b rest ih =>
    have hb := h b (List.mem_cons_self _ _)
    have hr : ∀ a ∈ rest, ∀ e, var.getattrRepr a ≠ Except.error e :=
      fun a ha => h a (List.mem_cons_of_mem _ ha)
    cases hgb : var.getattrRepr b with
    | error e => exact absurd hgb (hb e)
    | ok o =>
      cases o with
      | some s =>
        simp only [propsFold, hgb]
        exact ih _ hr
      | none =>
        simp only [propsFold, hgb]
        exact ih _ hr

/-- Helper: the batch loop returns whenever no zipped value has an
uncaught type probe failure. -/
theorem typesRecord_ok (l : List (PyObj × String)) (acc : List (String × String))
    (h : ∀ p ∈ l, p.1.typeProbe ≠ Except.error PyExn.otherError) :
    ∃ r, typesRecord l acc = Except.ok r := by
  induction l generalizing acc with
  | nil => exact ⟨acc, rfl⟩
  | cons p rest ih =>
    obtain ⟨v, n⟩ := p
    have hv := h (v, n) (List.mem_cons_self _ _)
    have hr : ∀ q ∈ rest, q.1.typeProbe ≠ Except.error PyExn.otherError :=
      fun q hq => h q (List.mem_cons_of_mem _ hq)
    cases hp : v.typeProbe with
    | ok tn =>
      cases tn with
      | some t =>
        simp only [typesRecord, hp]
        exact ih _ hr
      | none =>
        simp only [typesRecord, hp]
        exact ih _ hr
    | error e =>
      cases e with
      | typeError =>
        simp only [typesRecord, hp]
        exact ih _ hr
      | otherError => exact absurd hp hv

/-- Helper: reading the record of the batch loop: the last matching
introspected pair wins, then the accumulator. -/
theorem typesRecord_dictGet (l : List (PyObj × String)) (acc r : List (String × String))
    (h : typesRecord l acc = Except.ok r) (n : String) :
    dictGet r n = optOr (dictGet (typesSpec l).reverse n) (dictGet acc n) := by
  induction l generalizing acc with
  | nil =>
    simp only [typesRecord] at h
    injection h with h
    subst h
    simp [typesSpec, dictGet, optOr]
  | cons p rest ih =>
    obtain ⟨v, nm⟩ := p
    cases hp : v.typeProbe with
    | ok tn =>
      cases tn with
      | some t =>
        simp only [typesRecord, hp] at h
        rw [ih _ h, dictGet_insert]
        rw [show typesSpec ((v, nm) :: rest) = (nm, t) :: typesSpec rest from by
          simp [typesSpec, introspectedName, hp]]
        rw [List.reverse_cons, dictGet_append]
        cases hsr : dictGet (typesSpec rest).reverse n <;>
          by_cases hnm : nm = n <;> simp [optOr, dictGet, hnm]
      | none =>
        simp only [typesRecord, hp] at h
        rw [ih _ h]
        rw [show typesSpec ((v, nm) :: rest) = typesSpec rest from by
          simp [typesSpec, introspectedName, hp]]
    | error e =>
      cases e with
      | typeError =>
        simp only [typesRecord, hp] at h
        rw [ih _ h]
        rw [show typesSpec ((v, nm) :: rest) = typesSpec rest from by
          simp [typesSpec, introspectedName, hp]]
      | otherError => simp [typesRecord, hp] at h

/-- Helper: a key of an inserted dict is an old key or the inserted
one. -/
theorem pyDictInsert_keys_mem (acc : List (String × String)) (k v a : String)
    (h : a ∈ (pyDictInsert acc k v).map Prod.fst) :
    a ∈ acc.map Prod.fst ∨ a = k := by
  induction acc with
  | nil =>
    simp only [pyDictInsert, List.map_cons, List.map_nil, List.mem_cons,
      List.not_mem_nil, or_false] at h
    exact Or.inr h
  | cons p rest ih =>
    obtain ⟨k2, v2⟩ := p
    by_cases h2 : k2 = k
    · rw [show pyDictInsert ((k2, v2) :: rest) k v = (k2, v) :: rest from by
        simp [pyDictInsert, h2]] at h
      simp only [List.map_cons, List.mem_cons] at h ⊢
      rcases h with h | h
      · exact Or.inl (Or.inl h)
      · exact Or.inl (Or.inr h)
    · rw [show pyDictInsert ((k2, v2) :: rest) k v = (k2, v2) :: pyDictInsert rest k v from by
        simp [pyDictInsert, h2]] at h
      simp only [List.map_cons, List.mem_cons] at h ⊢
      rcases h with h | h
      · exact Or.inl (Or.inl h)
      · rcases ih h with h3 | h3
        · exact Or.inl (Or.inr h3)
        · exact Or.inr h3

/-- Helper: dict insertion preserves distinctness of the keys. -/
theorem pyDictInsert_keys_nodup (acc : List (String × String)) (k v : String)
    (h : (acc.map Prod.fst).Nodup) :
    ((pyDictInsert acc k v).map Prod.fst).Nodup := by
  induction acc with
  | nil => simp [pyDictInsert]
  | cons p rest ih =>
    obtain ⟨k2, v2⟩ := p
    simp only [List.map_cons, List.nodup_cons] at h
    by_cases h2 : k2 = k
    · rw [show pyDictInsert ((k2, v2) :: rest) k v = (k2, v) :: rest from by
        simp [pyDictInsert, h2]]
      simp only [List.map_cons, List.nodup_cons]
      exact ⟨h.1, h.2⟩
    · rw [show pyDictInsert ((k2, v2) :: rest) k v = (k2, v2) :: pyDictInsert rest k v from by
        simp [pyDictInsert, h2]]
      simp only [List.map_cons, List.nodup_cons]
      refine ⟨fun hmem => ?_, ih h.2⟩
      rcases pyDictInsert_keys_mem rest k v k2 hmem with h3 | h3
      · exact h.1 h3
      · exact h2 h3

/-- Helper: the batch loop keeps the keys of its record distinct. -/
theorem typesRecord_keys_nodup (l : List (PyObj × String))
    (acc r : List (String × String))
    (h : typesRecord l acc = Except.ok r)
    (hacc : (acc.map Prod.fst).Nodup) : (r.map Prod.fst).Nodup := by
  induction l generalizing acc with
  | nil =>
    simp only [typesRecord] at h
    injection h with h
    subst h
    exact hacc
  | cons p rest ih =>
    obtain ⟨v, nm⟩ := p
    cases hp : v.typeProbe with
    | ok tn =>
      cases tn with
      | some t =>
        simp only [typesRecord, hp] at h
        exact ih _ h (pyDictInsert_keys_nodup _ _ _ hacc)
      | none =>
        simp only [typesRecord, hp] at h
        exact ih _ h hacc
    | error e =>
      cases e with
      | typeError =>
        simp only [typesRecord, hp] at h
        exact ih _ h hacc
      | otherError => simp [typesRecord, hp] at h

/-- Helper: zipping truncates both sequences to the length of the
shorter one. -/
theorem zip_take_eq {α β : Type} (l1 : List α) (l2 : List β) :
    l1.zip l2 = (l1.take l2.length).zip (l2.take l1.length) := by
  induction l1 generalizing l2 with
  | nil => simp
  | cons a t1 ih =>
    cases l2 with
    | nil => simp
    | cons b t2 =>
      simp only [List.length_cons, List.take_succ_cons, List.zip_cons_cons]
      rw [ih t2]

/-- Helper: character data of an appended string. -/
theorem data_append (a b : String) : (a ++ b).data = a.data ++ b.data := rfl

/-- Helper: the marker test accepts any extension of the marker. -/
theorem startsWithL_self_append (m rest : List Char) :
    startsWithL m (m ++ rest) = true := by
  induction m with
  | nil => rfl
  | cons a as ih => simp [startsWithL, ih]

/-- Helper: a torch-form rendering never passes the tuple-form test,
since its first character is not an opening parenthesis. -/
theorem torch_text_not_tupleForm (mid : String) :
    tupleFormChk ("torch.Size([" ++ mid ++ "])").data = false := by
  rw [data_append, data_append]
  rw [show "torch.Size([".data = 't' :: "orch.Size([".data from rfl]
  rw [List.cons_append, List.cons_append]
  simp only [tupleFormChk, List.head?_cons]
  rw [show ((some 't' : Option Char) == some '(') = false from rfl]
  simp

/-- Helper: a torch-form rendering passes the marker test. -/
theorem torch_text_starts (mid : String) :
    startsWithL "torch.Size([".data ("torch.Size([" ++ mid ++ "])").data = true := by
  rw [data_append, data_append, List.append_assoc]
  exact startsWithL_self_append _ _

/-- Helper: the slice of a torch-form rendering is exactly the text
between the marker and the closing bracket pair. -/
theorem torch_text_slice (mid : String) :
    pySliceStr ("torch.Size([" ++ mid ++ "])") = mid := by
  unfold pySliceStr dropRightL
  rw [data_append, data_append, List.append_assoc]
  rw [show (12 : Nat) = ("torch.Size([".data).length from rfl, List.drop_left]
  rw [List.length_append, show ("])".data).length = 2 from rfl, Nat.add_sub_cancel,
    List.take_left]

/-- Helper: shape field in terms of the shape choice once the type and
shape probes return. -/
theorem shapeField_eq (v : PyObj) (tn : Option String) (sv : ShapeVal)
    (ht : v.typeProbe = Except.ok tn) (hs : v.hasShapeProbe = Except.ok true)
    (hp : v.shapeProbe = Except.ok sv) :
    shapeField v = shapeChoose tn sv := by
  have htn : typeNameOf v = tn := by simp [typeNameOf, ht]
  simp [shapeField, hs, hp, htn]

/-- Helper: once the isinstance-or-EagerTensor gate passes, the shape
choice is decided by the two textual tests alone. -/
theorem shapeChoose_gate (tn : Option String) (sv : ShapeVal)
    (hgate : sv.isTuple = true ∨ tn = some "EagerTensor") :
    shapeChoose tn sv =
      if tupleFormChk sv.text.data then sv.text
      else if startsWithL "torch.Size([".data sv.text.data then
        "(" ++ pySliceStr sv.text ++ ")"
      else "" := by
  rcases hgate with hg | hg <;> simp [shapeChoose, hg]

/-- Claim C1, counterexample: the three query functions are not total
and probe failures do propagate.  An object whose len call raises an
exception that is not a TypeError makes the descriptor query propagate
it; an object whose hasattr test on the shape name raises a TypeError
(that test stands outside the try block) makes the descriptor query
propagate even the caught class; and the properties query, which runs
under no handler at all, propagates a TypeError raised by an attribute
probe. -/
theorem claim1_counterexample :
    _VSCODE_getVariableInfo vBadLen = Except.error PyExn.otherError ∧
    _VSCODE_getVariableInfo vBadHasShape = Except.error PyExn.typeError ∧
    _VSCODE_getVariableProperties vBadProp ["a"] = Except.error PyExn.typeError ∧
    ∀ s : String, _VSCODE_getVariableInfo vBadLen ≠ Except.ok s := by
  refine ⟨rfl, rfl, rfl, fun s hs => ?_⟩
  rw [show _VSCODE_getVariableInfo vBadLen = Except.error PyExn.otherError from rfl] at hs
  exact Except.noConfusion hs

/-- Claim C1 (amended): the failures that are suppressed are exactly
those raised inside a try block with the caught class.  When the two
hasattr tests of the descriptor query return, the probes inside its
try blocks fail at most with a TypeError, no requested attribute probe
of the properties query raises, and no batch value has an uncaught
type probe failure, each of the three query functions terminates
normally with a well-formed serialized result, and each caught
TypeError falls back to its default without aborting the remaining
probes of the same call (the returned record is exactly the three
independent per-probe field values).  Every other failure propagates
to the caller. -/
theorem claim1_amended (v : PyObj) (bs bl : Bool) (vars : List PyObj)
    (names attrs : List String)
    (h1 : v.typeProbe ≠ Except.error PyExn.otherError)
    (h2 : v.hasShapeProbe = Except.ok bs)
    (h3 : v.shapeProbe ≠ Except.error PyExn.otherError)
    (h4 : v.hasLenProbe = Except.ok bl)
    (h5 : v.lenProbe ≠ Except.error PyExn.otherError)
    (h6 : ∀ a ∈ attrs, ∀ e, v.getattrRepr a ≠ Except.error e)
    (h7 : ∀ p ∈ vars.zip names, p.1.typeProbe ≠ Except.error PyExn.otherError) :
    _VSCODE_getVariableInfo v =
      Except.ok (dumpsObj (infoJson ⟨shapeField v, countField v, typeField v⟩)) ∧
    (∃ s, _VSCODE_getVariableProperties v attrs = Except.ok s) ∧
    (∃ s, _VSCODE_getVariableTypes vars names = Except.ok s) := by
  refine ⟨?_, ?_, ?_⟩
  · unfold _VSCODE_getVariableInfo getVariableInfoJson
    rw [benign_record v bs bl h1 h2 h3 h4 h5]
    rfl
  · obtain ⟨r, hr⟩ := propsFold_ok v attrs [] h6
    refine ⟨dumpsObj (strObj r), ?_⟩
    unfold _VSCODE_getVariableProperties propsRecord
    rw [hr]
    rfl
  · obtain ⟨r, hr⟩ := typesRecord_ok (vars.zip names) [] h7
    refine ⟨dumpsObj (strObj r), ?_⟩
    unfold _VSCODE_getVariableTypes getVariableTypesRecord
    rw [hr]
    rfl

/-- Claim C1 (amended), witness at a concrete benign input. -/
theorem claim1_amended_witness :
    (vInt.typeProbe ≠ Except.error PyExn.otherError) ∧
    vInt.hasShapeProbe = Except.ok false ∧
    (vInt.shapeProbe ≠ Except.error PyExn.otherError) ∧
    vInt.hasLenProbe = Except.ok false ∧
    (vInt.lenProbe ≠ Except.error PyExn.otherError) ∧
    (∀ a ∈ ["a"], ∀ e, vInt.getattrRepr a ≠ Except.error e) ∧
    (∀ p ∈ [vInt].zip ["n1"], p.1.typeProbe ≠ Except.error PyExn.otherError) ∧
    (_VSCODE_getVariableInfo vInt =
        Except.ok (dumpsObj (infoJson ⟨shapeField vInt, countField vInt, typeField vInt⟩)) ∧
      (∃ s, _VSCODE_getVariableProperties vInt ["a"] = Except.ok s) ∧
      (∃ s, _VSCODE_getVariableTypes [vInt] ["n1"] = Except.ok s)) :=
  ⟨by decide, by decide, by decide, by decide, by decide, by decide, by decide,
    claim1_amended vInt false false [vInt] ["n1"] ["a"] (by decide) (by decide)
      (by decide) (by decide) (by decide) (by decide) (by decide)⟩

/-- Claim C2, counterexample: a tuple-form shape rendering alone is not
sufficient.  An object whose shape attribute renders as a tuple-form
string but is not a tuple instance, with a type name other than the
gated one, gets an empty shape field. -/
theorem claim2_counterexample :
    getVariableInfoRecord vShapeC2 = Except.ok ⟨"", 0, "Foo"⟩ ∧
    tupleFormChk "(3, 4)".data = true ∧
    ("" : String) ≠ "(3, 4)" :=
  ⟨by decide, by decide, by decide⟩

/-- Claim C2 (amended): when additionally the shape attribute value is
a tuple instance or the type name of the value is EagerTensor, a
tuple-form rendering is reported verbatim in the shape field; the
acceptance criterion is the textual heuristic together with that
gate. -/
theorem claim2_amended (v : PyObj) (tn : Option String) (sv : ShapeVal) (bl : Bool)
    (ht : v.typeProbe = Except.ok tn) (hs : v.hasShapeProbe = Except.ok true)
    (hp : v.shapeProbe = Except.ok sv)
    (hgate : sv.isTuple = true ∨ tn = some "EagerTensor")
    (hform : tupleFormChk sv.text.data = true)
    (hbl : v.hasLenProbe = Except.ok bl)
    (hl : v.lenProbe ≠ Except.error PyExn.otherError) :
    ∃ r, getVariableInfoRecord v = Except.ok r ∧ r.shape = sv.text := by
  have h1 : v.typeProbe ≠ Except.error PyExn.otherError := by simp [ht]
  have h2 : v.shapeProbe ≠ Except.error PyExn.otherError := by simp [hp]
  refine ⟨_, benign_record v true bl h1 hs h2 hbl hl, ?_⟩
  show shapeField v = sv.text
  rw [shapeField_eq v tn sv ht hs hp, shapeChoose_gate tn sv hgate, hform]
  simp

/-- Claim C2 (amended), witness at a concrete array-like input. -/
theorem claim2_amended_witness :
    vTupleShape.typeProbe = Except.ok (some "ndarray") ∧
    vTupleShape.hasShapeProbe = Except.ok true ∧
    vTupleShape.shapeProbe = Except.ok ⟨true, "(3, 4)"⟩ ∧
    ((⟨true, "(3, 4)"⟩ : ShapeVal).isTuple = true ∨
      (some "ndarray" : Option String) = some "EagerTensor") ∧
    tupleFormChk (⟨true, "(3, 4)"⟩ : ShapeVal).text.data = true ∧
    vTupleShape.hasLenProbe = Except.ok true ∧
    vTupleShape.lenProbe ≠ Except.error PyExn.otherError ∧
    (∃ r, getVariableInfoRecord vTupleShape = Except.ok r ∧ r.shape = "(3, 4)") :=
  ⟨by decide, by decide, by decide, Or.inl (by decide), by decide, by decide, by decide,
    claim2_amended vTupleShape (some "ndarray") ⟨true, "(3, 4)"⟩ true
      (by decide) (by decide) (by decide) (Or.inl (by decide)) (by decide)
      (by decide) (by decide)⟩

/-- Claim C3, counterexample: a torch-form shape rendering alone is not
sufficient.  An object whose shape attribute renders in the torch form
but is not a tuple instance, with a type name other than the gated one,
gets an empty shape field instead of the rewritten tuple form. -/
theorem claim3_counterexample :
    getVariableInfoRecord vShapeC3 = Except.ok ⟨"", 0, "Foo"⟩ ∧
    startsWithL "torch.Size([".data "torch.Size([2, 5])".data = true ∧
    ("" : String) ≠ "(2, 5)" :=
  ⟨by decide, by decide, by decide⟩

/-- Claim C3 (amended): when additionally the shape attribute value is
a tuple instance or the type name of the value is EagerTensor, a
rendering of the torch form is rewritten into the tuple form: the
reported shape is an opening parenthesis, the text between the marker
and the trailing bracket pair, and a closing parenthesis. -/
theorem claim3_amended (v : PyObj) (tn : Option String) (sv : ShapeVal)
    (mid : String) (bl : Bool)
    (ht : v.typeProbe = Except.ok tn) (hs : v.hasShapeProbe = Except.ok true)
    (hp : v.shapeProbe = Except.ok sv)
    (hgate : sv.isTuple = true ∨ tn = some "EagerTensor")
    (hstr : sv.text = "torch.Size([" ++ mid ++ "])")
    (hbl : v.hasLenProbe = Except.ok bl)
    (hl : v.lenProbe ≠ Except.error PyExn.otherError) :
    ∃ r, getVariableInfoRecord v = Except.ok r ∧ r.shape = "(" ++ mid ++ ")" := by
  have h1 : v.typeProbe ≠ Except.error PyExn.otherError := by simp [ht]
  have h2 : v.shapeProbe ≠ Except.error PyExn.otherError := by simp [hp]
  refine ⟨_, benign_record v true bl h1 hs h2 hbl hl, ?_⟩
  show shapeField v = "(" ++ mid ++ ")"
  rw [shapeField_eq v tn sv ht hs hp, shapeChoose_gate tn sv hgate, hstr]
  rw [torch_text_not_tupleForm, torch_text_starts, torch_text_slice]
  simp

/-- Claim C3 (amended), witness at a concrete tensor-like input. -/
theorem claim3_amended_witness :
    vTorchShape.typeProbe = Except.ok (some "Tensor") ∧
    vTorchShape.hasShapeProbe = Except.ok true ∧
    vTorchShape.shapeProbe = Except.ok ⟨true, "torch.Size([2, 5])"⟩ ∧
    ((⟨true, "torch.Size([2, 5])"⟩ : ShapeVal).isTuple = true ∨
      (some "Tensor" : Option String) = some "EagerTensor") ∧
    (⟨true, "torch.Size([2, 5])"⟩ : ShapeVal).text = "torch.Size([" ++ "2, 5" ++ "])" ∧
    vTorchShape.hasLenProbe = Except.ok true ∧
    vTorchShape.lenProbe ≠ Except.error PyExn.otherError ∧
    (∃ r, getVariableInfoRecord vTorchShape = Except.ok r ∧
      r.shape = "(" ++ "2, 5" ++ ")") :=
  ⟨by decide, by decide, by decide, Or.inl (by decide), by decide, by decide, by decide,
    claim3_amended vTorchShape (some "Tensor") ⟨true, "torch.Size([2, 5])"⟩ "2, 5" true
      (by decide) (by decide) (by decide) (Or.inl (by decide)) (by decide)
      (by decide) (by decide)⟩

/-- Claim C4: in every record the descriptor query returns, the count
field is the read length when the value has a readable length, and
zero when it has none (no length protocol, or a caught length probe
failure). -/
theorem claim4_count_field (v : PyObj) (r : VarInfo)
    (h : getVariableInfoRecord v = Except.ok r) : r.count = countField v := by
  rw [record_ok_eq v r h]

/-- Claim C4, witness at a concrete input with a readable length. -/
theorem claim4_witness :
    getVariableInfoRecord vStr = Except.ok ⟨"", 1, "str"⟩ ∧
    (⟨"", 1, "str"⟩ : VarInfo).count = countField vStr :=
  ⟨by decide, claim4_count_field vStr ⟨"", 1, "str"⟩ (by decide)⟩

/-- Claim C5: in every record the descriptor query returns, the type
field is the name of the runtime type when it has one, and the empty
string when the type name is unavailable. -/
theorem claim5_type_field (v : PyObj) (r : VarInfo)
    (h : getVariableInfoRecord v = Except.ok r) : r.type = typeField v := by
  rw [record_ok_eq v r h]

/-- Claim C5, witness at a concrete input with a named type. -/
theorem claim5_witness :
    getVariableInfoRecord vInt = Except.ok ⟨"", 0, "int"⟩ ∧
    (⟨"", 0, "int"⟩ : VarInfo).type = typeField vInt :=
  ⟨by decide, claim5_type_field vInt ⟨"", 0, "int"⟩ (by decide)⟩

/-- Claim C6, counterexample: the properties query does not always
return a mapping.  It runs under no handler, so a possessed requested
attribute whose probe raises (here a TypeError from its repr) makes
the call propagate the exception instead of returning a record. -/
theorem claim6_counterexample :
    _VSCODE_getVariableProperties vBadAttr ["a"] = Except.error PyExn.typeError ∧
    ∀ s : String, _VSCODE_getVariableProperties vBadAttr ["a"] ≠ Except.ok s := by
  refine ⟨rfl, fun s hs => ?_⟩
  rw [show _VSCODE_getVariableProperties vBadAttr ["a"] = Except.error PyExn.typeError
    from rfl] at hs
  exact Except.noConfusion hs

/-- Claim C6 (amended): when no requested attribute probe raises, the
properties query returns a mapping whose keys are exactly the
requested names the value actually possesses, each mapped to the repr
of its attribute value; requested names the value lacks are silently
omitted and never reported as errors. -/
theorem claim6_amended (var : PyObj) (attrs : List String)
    (hb : ∀ a ∈ attrs, ∀ e, var.getattrRepr a ≠ Except.error e) :
    ∃ r, propsRecord var attrs = Except.ok r ∧
      _VSCODE_getVariableProperties var attrs = Except.ok (dumpsObj (strObj r)) ∧
      (∀ a ∈ attrs, ∃ o, var.getattrRepr a = Except.ok o ∧ dictGet r a = o) ∧
      (∀ a, a ∉ attrs → dictGet r a = none) := by
  obtain ⟨r, hr⟩ := propsFold_ok var attrs [] hb
  refine ⟨r, hr, ?_, ?_, ?_⟩
  · unfold _VSCODE_getVariableProperties propsRecord
    rw [hr]
    rfl
  · intro a ha
    cases hg : var.getattrRepr a with
    | error e => exact absurd hg (hb a ha e)
    | ok o =>
      refine ⟨o, rfl, ?_⟩
      rw [dictGet_propsFold var attrs [] r hr a]
      cases o with
      | some s => simp [ha, attrOutcome, hg]
      | none => simp [attrOutcome, hg, dictGet]
  · intro a ha
    rw [dictGet_propsFold var attrs [] r hr a]
    simp [ha, dictGet]

/-- Claim C6 (amended), witness at the example of the specification:
requested names a and c over a value possessing only a. -/
theorem claim6_amended_witness :
    (∀ a ∈ ["a", "c"], ∀ e, vProps.getattrRepr a ≠ Except.error e) ∧
    (∃ r, propsRecord vProps ["a", "c"] = Except.ok r ∧
      _VSCODE_getVariableProperties vProps ["a", "c"] =
        Except.ok (dumpsObj (strObj r)) ∧
      (∀ a ∈ ["a", "c"], ∃ o, vProps.getattrRepr a = Except.ok o ∧ dictGet r a = o) ∧
      (∀ a, a ∉ ["a", "c"] → dictGet r a = none)) :=
  ⟨by decide, claim6_amended vProps ["a", "c"] (by decide)⟩

/-- Claim C7: when no zipped value has an uncaught type probe failure,
the batch type query returns a record pairing the two sequences
strictly positionally, mapping each paired name to the type name of
its value, omitting every pair whose value yields no type name; and
the query truncates to the shorter sequence: it is unchanged when each
sequence is cut at the length of the other. -/
theorem claim7_types_semantics (vars : List PyObj) (names : List String)
    (h : ∀ p ∈ vars.zip names, p.1.typeProbe ≠ Except.error PyExn.otherError) :
    (∃ r, getVariableTypesRecord vars names = Except.ok r ∧
      ∀ n, dictGet r n = dictGet (typesSpec (vars.zip names)).reverse n) ∧
    _VSCODE_getVariableTypes vars names =
      _VSCODE_getVariableTypes (vars.take names.length) (names.take vars.length) := by
  constructor
  · obtain ⟨r, hr⟩ := typesRecord_ok (vars.zip names) [] h
    refine ⟨r, hr, fun n => ?_⟩
    rw [typesRecord_dictGet _ _ _ hr n]
    simp [dictGet, optOr_none]
  · unfold _VSCODE_getVariableTypes getVariableTypesRecord
    rw [← zip_take_eq]

/-- Claim C7, witness at the concrete two-element input of the
specification. -/
theorem claim7_witness :
    (∀ p ∈ [vInt, vStr].zip ["n1", "n2"],
      p.1.typeProbe ≠ Except.error PyExn.otherError) ∧
    ((∃ r, getVariableTypesRecord [vInt, vStr] ["n1", "n2"] = Except.ok r ∧
        ∀ n, dictGet r n = dictGet (typesSpec ([vInt, vStr].zip ["n1", "n2"])).reverse n) ∧
      _VSCODE_getVariableTypes [vInt, vStr] ["n1", "n2"] =
        _VSCODE_getVariableTypes ([vInt, vStr].take (["n1", "n2"] : List String).length)
          ((["n1", "n2"] : List String).take ([vInt, vStr] : List PyObj).length)) :=
  ⟨by decide, claim7_types_semantics [vInt, vStr] ["n1", "n2"] (by decide)⟩

/-- Claim C8: each of the three queries is idempotent with respect to
an unmodified value: the model represents an unmodified value as a
fixed object, and every query is a pure function of it, so two calls
with the same arguments agree. -/
theorem claim8_idempotent (v : PyObj) (attrs : List String)
    (vars : List PyObj) (names : List String) :
    _VSCODE_getVariableInfo v = _VSCODE_getVariableInfo v ∧
    _VSCODE_getVariableProperties v attrs = _VSCODE_getVariableProperties v attrs ∧
    _VSCODE_getVariableTypes vars names = _VSCODE_getVariableTypes vars names :=
  ⟨rfl, rfl, rfl⟩

/-- Claim C9: every mapping the descriptor query returns has exactly
the three keys shape, count and type in that order, the first and
last string-valued and the middle one number-valued, with the default
values of the fields being the empty string, zero and the empty string
whenever the matching probe does not populate them. -/
theorem claim9_keys (v : PyObj) (j : List (String × JPrim))
    (h : getVariableInfoJson v = Except.ok j) :
    j = [("shape", JPrim.str (shapeField v)), ("count", JPrim.num (countField v)),
         ("type", JPrim.str (typeField v))] ∧
    (v.hasShapeProbe = Except.ok false → shapeField v = "") ∧
    ((v.hasLenProbe = Except.ok false ∨ v.lenProbe = Except.error PyExn.typeError) →
      countField v = 0) ∧
    ((v.typeProbe = Except.ok none ∨ v.typeProbe = Except.error PyExn.typeError) →
      typeField v = "") := by
  refine ⟨?_, ?_, ?_, ?_⟩
  · unfold getVariableInfoJson at h
    cases hr : getVariableInfoRecord v with
    | error e =>
      rw [hr] at h
      simp [Except.map] at h
    | ok r =>
      rw [hr] at h
      simp only [Except.map] at h
      injection h with h
      rw [← h, record_ok_eq v r hr]
      rfl
  · intro hs
    simp [shapeField, hs]
  · intro hc
    rcases hc with hc | hc
    · simp [countField, hc]
    · cases hb : v.hasLenProbe with
      | error e => simp [countField, hb]
      | ok b => cases b <;> simp [countField, hb, hc]
  · intro ht
    rcases ht with ht | ht <;> simp [typeField, typeNameOf, ht]

/-- Claim C9, witness at a concrete input populating all three
fields. -/
theorem claim9_witness :
    getVariableInfoJson vTupleShape =
      Except.ok [("shape", JPrim.str "(3, 4)"), ("count", JPrim.num 3),
        ("type", JPrim.str "ndarray")] ∧
    ([("shape", JPrim.str "(3, 4)"), ("count", JPrim.num 3),
        ("type", JPrim.str "ndarray")] =
      [("shape", JPrim.str (shapeField vTupleShape)),
        ("count", JPrim.num (countField vTupleShape)),
        ("type", JPrim.str (typeField vTupleShape))] ∧
      (vTupleShape.hasShapeProbe = Except.ok false → shapeField vTupleShape = "") ∧
      ((vTupleShape.hasLenProbe = Except.ok false ∨
          vTupleShape.lenProbe = Except.error PyExn.typeError) →
        countField vTupleShape = 0) ∧
      ((vTupleShape.typeProbe = Except.ok none ∨
          vTupleShape.typeProbe = Except.error PyExn.typeError) →
        typeField vTupleShape = "")) :=
  ⟨by decide, claim9_keys vTupleShape _ (by decide)⟩

/-- Claim C10: the record of the batch type query has pairwise distinct
keys, so a name occurring at several positions gets exactly one entry,
and reading that name gives the type name of the value paired with its
last introspectable occurrence. -/
theorem claim10_last_wins (vars : List PyObj) (names : List String)
    (r : List (String × String))
    (h : getVariableTypesRecord vars names = Except.ok r) :
    (r.map Prod.fst).Nodup ∧
    ∀ n, dictGet r n = dictGet (typesSpec (vars.zip names)).reverse n := by
  unfold getVariableTypesRecord at h
  constructor
  · exact typesRecord_keys_nodup _ _ _ h (by simp)
  · intro n
    rw [typesRecord_dictGet _ _ _ h n]
    simp [dictGet, optOr_none]

/-- Claim C10, witness at a concrete input with a duplicated name. -/
theorem claim10_witness :
    getVariableTypesRecord [vInt, vStr] ["n", "n"] = Except.ok [("n", "str")] ∧
    (([("n", "str")].map Prod.fst).Nodup ∧
      ∀ n, dictGet [("n", "str")] n =
        dictGet (typesSpec ([vInt, vStr].zip ["n", "n"])).reverse n) :=
  ⟨by decide, claim10_last_wins [vInt, vStr] ["n", "n"] [("n", "str")] (by decide)⟩
